import Mathlib

/-!
Shallow embedding of the TLS certificate-expiry checking engine of
henry40408/mono (crates `hcc` core, `hcc` pushover daemon, `cdu` daemon),
together with proofs about the spec's testable properties.

The network-facing part of `check_one` (DNS resolution, TCP connect, TLS
handshake, the forced HTTP write, peer-certificate retrieval, X.509 parsing)
is represented by a `FetchOutcome` value describing how that interaction
went for the given domain; everything downstream of it is translated
directly from `src/hcc/core/src/check_client.rs`.
-/

namespace HccSpec

/-- Modelled from the spec: the `CheckState` enumeration of the missing
`check_result.rs`. §3/§4.2 name the three states `Ok`, `Warning`, `Expired`,
and §4.2/§9 describe a fourth, distinct "`Default`/neutral" outcome used when
certificate parsing fails (`CheckResult::default()` in the source). -/
inductive CheckState
  | Ok
  | Warning
  | Expired
  | Default
  deriving DecidableEq, Repr

/-- Modelled from the spec: the `CheckResult` record of the missing
`check_result.rs` (§3 data model). Timestamps are UTC seconds as `Int`;
`elapsed` is present only when timing was requested. -/
structure CheckResult where
  state : CheckState
  checked_at : Int
  days : Int
  domain_name : String
  not_after : Int
  elapsed : Option Nat
  deriving DecidableEq, Repr

/-- Modelled from the spec: `CheckResult::default()` of the missing
`check_result.rs`, the "neutral/default result with zero not-after" of
§4.2/§7/§9. The call site `check_client.rs:81` is nullary, so every field is
a constant independent of the checked domain and of the client: all fields
take their neutral/zero defaults. -/
def CheckResult.default : CheckResult :=
  { state := CheckState.Default
    checked_at := 0
    days := 0
    domain_name := ""
    not_after := 0
    elapsed := none }

/-- Modelled from the spec: `CheckResult::expired(domain_name, checked_at)`
of the missing `check_result.rs`, the terminal `Expired` outcome of §4.1
step 4 and §4.2: `state = Expired`, `not_after = 0` (sentinel), carrying the
input domain and the client's check timestamp. -/
def CheckResult.expired (domain_name : String) (checked_at : Int) : CheckResult :=
  { state := CheckState.Expired
    checked_at := checked_at
    days := 0
    domain_name := domain_name
    not_after := 0
    elapsed := none }

/-- State of `CheckClient` (`check_client.rs:15`): the check timestamp fixed
at construction, the timing flag and the grace period. The shared rustls
`ClientConfig` carries no data the checks read, so it is omitted. -/
structure CheckClient where
  checked_at : Int
  elapsed : Bool
  grace_in_days : Int
  deriving DecidableEq, Repr

/-- Embedding of chrono's `round_subsecs(0)` used at `check_client.rs:41`:
rounds half up to whole seconds. `secs` is the UTC timestamp in whole
seconds and `nanos < 10^9` the subsecond part. -/
def roundSubsecs0 (secs : Int) (nanos : Nat) : Int :=
  if 500000000 ≤ nanos then secs + 1 else secs

/-- Truncation of the same instant to whole seconds (chrono's
`trunc_subsecs(0)`), for comparison with what the source does. -/
def truncSubsecs0 (secs : Int) (_nanos : Nat) : Int :=
  secs

/-- The `Default for CheckClient` impl (`check_client.rs:34-47`), with the
construction instant (seconds and subsecond nanoseconds of `Utc::now()`)
made explicit: `checked_at = Utc::now().round_subsecs(0)`, `elapsed = false`,
`grace_in_days = 7`. -/
def CheckClient.construct (secs : Int) (nanos : Nat) : CheckClient :=
  { checked_at := roundSubsecs0 secs nanos
    elapsed := false
    grace_in_days := 7 }

/-- Embedding of chrono's `Duration::num_days()` on a whole-second duration
(`check_client.rs:86`): `num_seconds() / 86400` with Rust `i64` division,
which truncates toward zero. -/
def numDays (seconds : Int) : Int :=
  Int.tdiv seconds 86400

/-- Mathematical floor of a whole-second duration in days, for comparison
with what the source computes. -/
def floorDays (seconds : Int) : Int :=
  Int.fdiv seconds 86400

/-- How the network interaction of `check_one` went for one domain: each
constructor is one exit point of the fetch pipeline of
`check_client.rs:58-83`. `parsed` carries the leaf certificate's not-after
timestamp (whole UTC seconds, `check_client.rs:83`) and the elapsed write
time in milliseconds. -/
inductive FetchOutcome
  | dnsError
  | connectError
  | writeFailed
  | noPeerCertificates
  | noCertificate
  | parseFailed
  | parsed (notAfter : Int) (elapsedMs : Nat)
  deriving DecidableEq, Repr

/-- Typed counterpart of the `anyhow` errors `check_one` can return. -/
inductive CheckError
  | invalidDnsName (domain_name : String)
  | connectFailed (domain_name : String)
  | noPeerCertificates (domain_name : String)
  | noCertificateFound (domain_name : String)
  deriving DecidableEq, Repr

/-- Does this fetch outcome make `check_one` return an error (the `?` exits
at `check_client.rs:58`, `:60`, `:73`, `:77`), as opposed to the two
special-cased `Ok` returns (write failure, parse failure) and the parse
success path? -/
def FetchOutcome.isHardError : FetchOutcome → Bool
  | FetchOutcome.dnsError => true
  | FetchOutcome.connectError => true
  | FetchOutcome.noPeerCertificates => true
  | FetchOutcome.noCertificate => true
  | _ => false

/-- Embedding of `CheckClient::check_one` (`check_client.rs:57-104`), with
the network interaction summarized by `o : FetchOutcome`. -/
def check_one (c : CheckClient) (domain_name : String) (o : FetchOutcome) :
    Except CheckError CheckResult :=
  match o with
  | FetchOutcome.dnsError => Except.error (CheckError.invalidDnsName domain_name)
  | FetchOutcome.connectError => Except.error (CheckError.connectFailed domain_name)
  | FetchOutcome.writeFailed =>
      Except.ok (CheckResult.expired domain_name c.checked_at)
  | FetchOutcome.noPeerCertificates =>
      Except.error (CheckError.noPeerCertificates domain_name)
  | FetchOutcome.noCertificate =>
      Except.error (CheckError.noCertificateFound domain_name)
  | FetchOutcome.parseFailed => Except.ok CheckResult.default
  | FetchOutcome.parsed notAfter elapsedMs =>
      let days := numDays (notAfter - c.checked_at)
      let state :=
        if days > c.grace_in_days then CheckState.Ok else CheckState.Warning
      Except.ok
        { state := state
          checked_at := c.checked_at
          days := days
          domain_name := domain_name
          not_after := notAfter
          elapsed := if c.elapsed then some elapsedMs else none }

/-- Embedding of `futures::future::try_join_all` over the already-ordered
task list (`check_client.rs:125`): all results in task order when every task
succeeds, otherwise an error. -/
def tryJoinAll {E A : Type} : List (Except E A) → Except E (List A)
  | [] => Except.ok []
  | Except.ok a :: rest =>
      match tryJoinAll rest with
      | Except.ok as => Except.ok (a :: as)
      | Except.error e => Except.error e
  | Except.error e :: _ => Except.error e

/-- Embedding of `CheckClient::check_many` (`check_client.rs:113-126`): one
`check_one` task per input domain, in input order, joined with
`try_join_all`. Each input pairs a domain name with its fetch outcome. -/
def check_many (c : CheckClient) (inputs : List (String × FetchOutcome)) :
    Except CheckError (List CheckResult) :=
  tryJoinAll (inputs.map (fun p => check_one c p.1 p.2))

/-- Error type of one daemon tick's work (the batch check plus delivery in
`pushover/src/main.rs:73-99`, `cdu.run()` after retries in
`cdu/src/main.rs:61-69`), abstract here. -/
inductive DaemonError
  | tickFailed (message : String)
  deriving DecidableEq, Repr

/-- Embedding of the daemon scheduling loops (`pushover/src/main.rs:54-68`
and `cdu/src/main.rs:50-72`): each scheduled fire's work is summarized by
its `Except` outcome; the loop body ends in `?`, so an error propagates out
of the loop. Returns the list of ticks actually executed and the value the
enclosing function returns. -/
def runDaemon : List (Except DaemonError Unit) →
    List (Except DaemonError Unit) × Except DaemonError Unit
  | [] => ([], Except.ok ())
  | t :: rest =>
      match t with
      | Except.ok () =>
          let p := runDaemon rest
          (t :: p.1, p.2)
      | Except.error e => ([t], Except.error e)

/-- Is an `Except` value a success? (the notion `try_join_all` branches on). -/
def exceptIsOk {E A : Type} : Except E A → Bool
  | Except.ok _ => true
  | Except.error _ => false

/-- Sample client with `checked_at = 0` and the default grace period 7. -/
def sampleClient : CheckClient :=
  { checked_at := 0, elapsed := false, grace_in_days := 7 }

/-- Sample client whose check timestamp is 1000 seconds past the epoch. -/
def sampleClient1000 : CheckClient :=
  { checked_at := 1000, elapsed := false, grace_in_days := 7 }

/-- The result `sampleClient` produces for a certificate expiring 10 days
after `checked_at`. -/
def sampleOkResult : CheckResult :=
  { state := CheckState.Ok
    checked_at := 0
    days := 10
    domain_name := "example.com"
    not_after := 864000
    elapsed := none }

/-- Sample batch input on which every per-domain check succeeds. -/
def sampleInputs : List (String × FetchOutcome) :=
  [("a.example", FetchOutcome.parsed 864000 0),
   ("b.example", FetchOutcome.writeFailed)]

/-- Sample batch input whose second domain hits a hard fetch error. -/
def sampleBadInputs : List (String × FetchOutcome) :=
  [("a.example", FetchOutcome.parsed 864000 0),
   ("bad.example", FetchOutcome.noPeerCertificates)]

/-- The result `sampleClient1000` produces for a certificate whose not-after
lies 1 second before `checked_at`. -/
def sampleNegResult : CheckResult :=
  { state := CheckState.Warning
    checked_at := 1000
    days := 0
    domain_name := "example.com"
    not_after := 999
    elapsed := none }

section Helpers

/-- Joining a list of tasks succeeds exactly with the list of their payloads
when every task succeeded: success of `tryJoinAll` forces the input to be
the payload list mapped through `Except.ok`, preserving order. -/
theorem tryJoinAll_ok_implies {E A : Type} (l : List (Except E A)) (as : List A)
    (h : tryJoinAll l = Except.ok as) : l = as.map Except.ok := by
  induction l generalizing as with
  | nil =>
      simp only [tryJoinAll, Except.ok.injEq] at h
      subst h
      rfl
  | cons x rest ih =>
      cases x with
      | error e => simp [tryJoinAll] at h
      | ok a =>
          simp only [tryJoinAll] at h
          cases hr : tryJoinAll rest with
          | error e => rw [hr] at h; simp at h
          | ok bs =>
              rw [hr] at h
              simp only [Except.ok.injEq] at h
              subst h
              simp [ih bs hr]

/-- If every element of the list is a success, `tryJoinAll` succeeds. -/
theorem tryJoinAll_ok_of_forall {E A : Type} (l : List (Except E A))
    (h : ∀ x ∈ l, exceptIsOk x = true) :
    ∃ as, tryJoinAll l = Except.ok as := by
  induction l with
  | nil => exact ⟨[], rfl⟩
  | cons x rest ih =>
      obtain ⟨as, has⟩ := ih (fun y hy => h y (List.mem_cons_of_mem x hy))
      cases x with
      | error e =>
          exact absurd (h (Except.error e) (List.mem_cons_self _ rest))
            (by simp [exceptIsOk])
      | ok a => exact ⟨a :: as, by simp [tryJoinAll, has]⟩

/-- If some element of the list is a failure, `tryJoinAll` fails. -/
theorem tryJoinAll_error_of_mem {E A : Type} (l : List (Except E A))
    (x : Except E A) (hmem : x ∈ l) (hx : exceptIsOk x = false) :
    ∃ e, tryJoinAll l = Except.error e := by
  induction l with
  | nil => simp at hmem
  | cons y rest ih =>
      cases y with
      | error e => exact ⟨e, rfl⟩
      | ok a =>
          have hmem' : x ∈ rest := by
            cases List.mem_cons.mp hmem with
            | inl hxy => subst hxy; simp [exceptIsOk] at hx
            | inr h' => exact h'
          obtain ⟨e, he⟩ := ih hmem'
          exact ⟨e, by simp [tryJoinAll, he]⟩

/-- Hard fetch outcomes make `check_one` fail. -/
theorem check_one_error_of_hard (c : CheckClient) (d : String) (o : FetchOutcome)
    (h : o.isHardError = true) :
    exceptIsOk (check_one c d o) = false := by
  cases o <;> simp_all [FetchOutcome.isHardError, check_one, exceptIsOk]

/-- Every successful `check_one` result outside the parse-failure path
carries the client's `checked_at`. -/
theorem check_one_ok_checked_at (c : CheckClient) (d : String) (o : FetchOutcome)
    (r : CheckResult) (ho : o ≠ FetchOutcome.parseFailed)
    (h : check_one c d o = Except.ok r) :
    r.checked_at = c.checked_at := by
  cases o with
  | dnsError => exact absurd h (by simp [check_one])
  | connectError => exact absurd h (by simp [check_one])
  | noPeerCertificates => exact absurd h (by simp [check_one])
  | noCertificate => exact absurd h (by simp [check_one])
  | parseFailed => exact absurd rfl ho
  | writeFailed =>
      simp only [check_one, Except.ok.injEq] at h
      subst h
      rfl
  | parsed nA ms =>
      simp only [check_one, Except.ok.injEq] at h
      subst h
      rfl

end Helpers

section Theorems

/-- C1: on the parse-success path, the returned state is `Ok` iff the
computed `days_remaining` exceeds the grace period, and `Warning` iff it is
at most the grace period; in particular, with a nonnegative grace period, a
certificate whose not-after is already in the past (negative days) is
classified `Warning` and never `Expired`. -/
theorem C1_classifier_state (c : CheckClient) (d : String) (nA : Int) (ms : Nat)
    (r : CheckResult)
    (h : check_one c d (FetchOutcome.parsed nA ms) = Except.ok r) :
    (r.state = CheckState.Ok ↔ c.grace_in_days < r.days) ∧
    (r.state = CheckState.Warning ↔ r.days ≤ c.grace_in_days) ∧
    (0 ≤ c.grace_in_days → r.days < 0 →
      r.state = CheckState.Warning ∧ r.state ≠ CheckState.Expired) := by
  simp only [check_one, Except.ok.injEq] at h
  subst h
  by_cases hgt : c.grace_in_days < numDays (nA - c.checked_at)
  · simp only [gt_iff_lt, hgt, if_true]
    refine ⟨by simp [hgt], by simp [hgt, not_lt.mp], ?_⟩
    intro hg hneg
    omega
  · simp only [gt_iff_lt, hgt, if_false]
    exact ⟨by simp [hgt], by simp [not_lt.mp hgt], fun _ _ => by simp⟩

/-- Witness for C1 at a concrete input: `sampleClient` checking a
certificate that expires 10 days after `checked_at`. -/
theorem C1_classifier_state_witness :
    (sampleOkResult.state = CheckState.Ok ↔
      sampleClient.grace_in_days < sampleOkResult.days) ∧
    (sampleOkResult.state = CheckState.Warning ↔
      sampleOkResult.days ≤ sampleClient.grace_in_days) ∧
    (0 ≤ sampleClient.grace_in_days → sampleOkResult.days < 0 →
      sampleOkResult.state = CheckState.Warning ∧
      sampleOkResult.state ≠ CheckState.Expired) :=
  C1_classifier_state sampleClient "example.com" 864000 0 sampleOkResult rfl

/-- C2: a failed forced write makes `check_one` return a successful result
with `state = Expired` and `not_after = 0`, for every client (hence every
grace period); the failure is never propagated as an error. -/
theorem C2_write_failure_is_expired (c : CheckClient) (d : String) :
    check_one c d FetchOutcome.writeFailed =
      Except.ok (CheckResult.expired d c.checked_at) ∧
    (CheckResult.expired d c.checked_at).state = CheckState.Expired ∧
    (CheckResult.expired d c.checked_at).not_after = 0 :=
  ⟨rfl, rfl, rfl⟩

/-- Counterexample to C6 as stated: with `checked_at = 1000` and a
certificate not-after of 999 (one second in the past), the code computes
`days = 0` (truncation toward zero) while the mathematical floor of the
difference in days is `-1`. -/
theorem C6_counterexample :
    check_one sampleClient1000 "example.com" (FetchOutcome.parsed 999 0) =
      Except.ok sampleNegResult ∧
    sampleNegResult.days = 0 ∧
    floorDays (sampleNegResult.not_after - sampleClient1000.checked_at) = -1 := by
  refine ⟨rfl, rfl, ?_⟩
  decide

/-- C6 amended: `days_remaining` equals `(not_after - checked_at)` in days
truncated toward zero (Rust `i64` division via chrono `num_days`), not the
floor; the two agree whenever the difference is nonnegative. -/
theorem C6_days_truncated (c : CheckClient) (d : String) (nA : Int) (ms : Nat)
    (r : CheckResult)
    (h : check_one c d (FetchOutcome.parsed nA ms) = Except.ok r) :
    r.days = Int.tdiv (nA - c.checked_at) 86400 ∧
    (0 ≤ nA - c.checked_at → r.days = floorDays (nA - c.checked_at)) := by
  simp only [check_one, Except.ok.injEq] at h
  subst h
  refine ⟨rfl, fun hnn => ?_⟩
  show numDays (nA - c.checked_at) = floorDays (nA - c.checked_at)
  unfold numDays floorDays
  rw [Int.tdiv_eq_ediv hnn (by norm_num), Int.fdiv_eq_ediv _ (by norm_num)]

/-- Witness for C6 amended at a concrete input: `sampleClient` and a
not-after 10 days in the future. -/
theorem C6_days_truncated_witness :
    sampleOkResult.days = Int.tdiv (864000 - sampleClient.checked_at) 86400 ∧
    (0 ≤ 864000 - sampleClient.checked_at →
      sampleOkResult.days = floorDays (864000 - sampleClient.checked_at)) :=
  C6_days_truncated sampleClient "example.com" 864000 0 sampleOkResult rfl

/-- Counterexample to C8 as stated: a client constructed at an instant with
600 ms of subseconds gets `checked_at` rounded up to the next whole second,
not truncated; the result of a check carries that rounded-up value. -/
theorem C8_counterexample :
    check_one (CheckClient.construct 10 600000000) "example.com"
        FetchOutcome.writeFailed =
      Except.ok (CheckResult.expired "example.com" 11) ∧
    (CheckResult.expired "example.com" 11).checked_at ≠ truncSubsecs0 10 600000000 := by
  refine ⟨rfl, ?_⟩
  decide

/-- C8 amended: for every result `check_one` produces via the write-failure
or parse-success paths, `checked_at` is the construction-time UTC instant
rounded half-up (chrono `round_subsecs(0)`) to whole seconds. -/
theorem C8_checked_at_rounded (secs : Int) (nanos : Nat) (d : String)
    (o : FetchOutcome) (r : CheckResult)
    (ho : o ≠ FetchOutcome.parseFailed)
    (h : check_one (CheckClient.construct secs nanos) d o = Except.ok r) :
    r.checked_at = roundSubsecs0 secs nanos ∧
    (500000000 ≤ nanos → r.checked_at = secs + 1) ∧
    (nanos < 500000000 → r.checked_at = secs) := by
  cases o with
  | dnsError => exact absurd h (by simp [check_one])
  | connectError => exact absurd h (by simp [check_one])
  | noPeerCertificates => exact absurd h (by simp [check_one])
  | noCertificate => exact absurd h (by simp [check_one])
  | parseFailed => exact absurd rfl ho
  | writeFailed =>
      simp only [check_one, Except.ok.injEq] at h
      subst h
      refine ⟨rfl, fun hn => ?_, fun hn => ?_⟩
      · show roundSubsecs0 secs nanos = secs + 1
        simp [roundSubsecs0, hn]
      · show roundSubsecs0 secs nanos = secs
        simp [roundSubsecs0, Nat.not_le.mpr hn]
  | parsed nA ms =>
      simp only [check_one, Except.ok.injEq] at h
      subst h
      refine ⟨rfl, fun hn => ?_, fun hn => ?_⟩
      · show roundSubsecs0 secs nanos = secs + 1
        simp [roundSubsecs0, hn]
      · show roundSubsecs0 secs nanos = secs
        simp [roundSubsecs0, Nat.not_le.mpr hn]

/-- Witness for C8 amended at a concrete input: construction at 600 ms past
second 10, write-failure path. -/
theorem C8_checked_at_rounded_witness :
    (CheckResult.expired "example.com" 11).checked_at = roundSubsecs0 10 600000000 ∧
    (500000000 ≤ 600000000 →
      (CheckResult.expired "example.com" 11).checked_at = 10 + 1) ∧
    (600000000 < 500000000 →
      (CheckResult.expired "example.com" 11).checked_at = 10) :=
  C8_checked_at_rounded 10 600000000 "example.com" FetchOutcome.writeFailed
    (CheckResult.expired "example.com" 11) (by simp) rfl

/-- C3: when every per-domain check succeeds, `check_many` returns exactly
one result per input domain, and the result list mapped through `Except.ok`
equals the input list mapped through `check_one`: the k-th returned result
is the result of the k-th input domain, so the output order matches the
input order. -/
theorem C3_check_many_ordered (c : CheckClient)
    (inputs : List (String × FetchOutcome))
    (hall : ∀ p ∈ inputs, exceptIsOk (check_one c p.1 p.2) = true) :
    ∃ rs : List CheckResult, check_many c inputs = Except.ok rs ∧
      rs.length = inputs.length ∧
      inputs.map (fun p => check_one c p.1 p.2) = rs.map Except.ok := by
  obtain ⟨rs, hrs⟩ := tryJoinAll_ok_of_forall
    (inputs.map (fun p => check_one c p.1 p.2))
    (by
      intro x hx
      obtain ⟨p, hp, hpx⟩ := List.mem_map.mp hx
      exact hpx ▸ hall p hp)
  have hmap := tryJoinAll_ok_implies _ _ hrs
  refine ⟨rs, hrs, ?_, hmap⟩
  have hlen := congrArg List.length hmap
  simpa using hlen.symm

/-- Witness for C3 at a concrete input: a two-domain batch in which both
checks succeed. -/
theorem C3_check_many_ordered_witness :
    ∃ rs : List CheckResult,
      check_many sampleClient sampleInputs = Except.ok rs ∧
      rs.length = sampleInputs.length ∧
      sampleInputs.map (fun p => check_one sampleClient p.1 p.2) =
        rs.map Except.ok :=
  C3_check_many_ordered sampleClient sampleInputs (by decide)

/-- C4: if any input domain's fetch outcome is one of the hard-error cases
(invalid DNS name, TCP connect failure, missing peer certificate, empty
certificate list), `check_many` returns a whole-batch error rather than a
partial result list. -/
theorem C4_hard_error_aborts_batch (c : CheckClient)
    (inputs : List (String × FetchOutcome)) (p : String × FetchOutcome)
    (hmem : p ∈ inputs)
    (herr : p.2.isHardError = true) :
    ∃ e, check_many c inputs = Except.error e := by
  apply tryJoinAll_error_of_mem _ (check_one c p.1 p.2)
  · exact List.mem_map_of_mem (fun q => check_one c q.1 q.2) hmem
  · exact check_one_error_of_hard c p.1 p.2 herr

/-- Witness for C4 at a concrete input: a two-domain batch whose second
domain presents no peer certificate. -/
theorem C4_hard_error_aborts_batch_witness :
    ∃ e, check_many sampleClient sampleBadInputs = Except.error e :=
  C4_hard_error_aborts_batch sampleClient sampleBadInputs
    ("bad.example", FetchOutcome.noPeerCertificates) (by decide) (by decide)

/-- Counterexample to C5 as stated: a check in which the peer presents no
certificate makes `check_one` return an error (which aborts the batch), not
a neutral/default `CheckResult`. -/
theorem C5_counterexample :
    check_one sampleClient1000 "example.com" FetchOutcome.noPeerCertificates =
      Except.error (CheckError.noPeerCertificates "example.com") ∧
    exceptIsOk
      (check_one sampleClient1000 "example.com" FetchOutcome.noPeerCertificates) =
      false :=
  ⟨rfl, rfl⟩

/-- C5 amended: only a leaf certificate that fails to parse yields the
neutral/default `CheckResult` with zero not-after, an outcome distinct from
`Ok`, `Warning` and `Expired`; a missing peer certificate (and an empty
certificate list) is a hard error instead. -/
theorem C5_parse_failure_neutral (c : CheckClient) (d : String) :
    check_one c d FetchOutcome.parseFailed = Except.ok CheckResult.default ∧
    CheckResult.default.not_after = 0 ∧
    CheckResult.default.state ≠ CheckState.Ok ∧
    CheckResult.default.state ≠ CheckState.Warning ∧
    CheckResult.default.state ≠ CheckState.Expired ∧
    (∃ e, check_one c d FetchOutcome.noPeerCertificates = Except.error e) ∧
    (∃ e, check_one c d FetchOutcome.noCertificate = Except.error e) :=
  ⟨rfl, rfl, by decide, by decide, by decide, ⟨_, rfl⟩, ⟨_, rfl⟩⟩

/-- Counterexample to C7 as stated: on the parse-failure path the returned
result is the nullary `CheckResult::default()`, whose domain name is the
default empty string, not the input domain. -/
theorem C7_counterexample :
    check_one sampleClient1000 "a.example" FetchOutcome.parseFailed =
      Except.ok CheckResult.default ∧
    CheckResult.default.domain_name ≠ "a.example" :=
  ⟨rfl, by decide⟩

/-- C7 amended: the returned `domain_name` equals the input domain on the
parse-success and write-failure paths; on the parse-failure path the result
is the default record, whose domain name is the empty string. -/
theorem C7_domain_name_paths (c : CheckClient) (d : String) :
    (∀ nA ms, ∃ r,
      check_one c d (FetchOutcome.parsed nA ms) = Except.ok r ∧
      r.domain_name = d) ∧
    (∃ r, check_one c d FetchOutcome.writeFailed = Except.ok r ∧
      r.domain_name = d) ∧
    (∃ r, check_one c d FetchOutcome.parseFailed = Except.ok r ∧
      r.domain_name = "") :=
  ⟨fun _ _ => ⟨_, rfl, rfl⟩, ⟨_, rfl, rfl⟩, ⟨_, rfl, rfl⟩⟩

/-- Counterexample to C9 as stated: with two scheduled fires whose first
tick fails, only one tick executes and the daemon function returns the
error — the process terminates instead of proceeding to the next fire. -/
theorem C9_counterexample :
    (runDaemon [Except.error (DaemonError.tickFailed "network"),
      Except.ok ()]).1.length = 1 ∧
    (runDaemon [Except.error (DaemonError.tickFailed "network"),
      Except.ok ()]).2 =
      Except.error (DaemonError.tickFailed "network") :=
  ⟨rfl, rfl⟩

/-- C9 amended: a tick whose batch check fails is the last tick the daemon
loop executes: the error propagates out of the loop (the `?` in the loop
body), the later scheduled fires never run, and the daemon returns the
tick's error. -/
theorem C9_tick_error_terminates_daemon
    (pre post : List (Except DaemonError Unit)) (e : DaemonError)
    (hpre : ∀ t ∈ pre, t = Except.ok ()) :
    runDaemon (pre ++ Except.error e :: post) =
      (pre ++ [Except.error e], Except.error e) := by
  induction pre with
  | nil => rfl
  | cons t rest ih =>
      have ht := hpre t (List.mem_cons_self t rest)
      subst ht
      simp only [List.cons_append, runDaemon, List.append_eq]
      rw [ih (fun y hy => hpre y (List.mem_cons_of_mem _ hy))]

/-- Witness for C9 amended at a concrete input: three scheduled fires, the
second of which fails. -/
theorem C9_tick_error_terminates_daemon_witness :
    runDaemon ([Except.ok ()] ++
        Except.error (DaemonError.tickFailed "api") :: [Except.ok ()]) =
      ([Except.ok ()] ++ [Except.error (DaemonError.tickFailed "api")],
        Except.error (DaemonError.tickFailed "api")) :=
  C9_tick_error_terminates_daemon [Except.ok ()] [Except.ok ()]
    (DaemonError.tickFailed "api") (by intro t ht; simpa using ht)

/-- Counterexample to C10 as stated: one client instance whose write-failure
check and parse-failure check produce results with different `checked_at`
values (the construction-time 1000 versus the default 0). -/
theorem C10_counterexample :
    check_one sampleClient1000 "a.example" FetchOutcome.writeFailed =
      Except.ok (CheckResult.expired "a.example" 1000) ∧
    check_one sampleClient1000 "a.example" FetchOutcome.parseFailed =
      Except.ok CheckResult.default ∧
    (CheckResult.expired "a.example" 1000).checked_at ≠
      CheckResult.default.checked_at :=
  ⟨rfl, rfl, by decide⟩

/-- C10 amended: outside the parse-failure path, every result a client
instance produces — through `check_one` or through `check_many` — carries
the client's single `checked_at` value, fixed at construction and never
re-sampled per check or per batch; parse-failure results instead carry the
default record's `checked_at`. -/
theorem C10_checked_at_fixed (c : CheckClient) :
    (∀ d o r, o ≠ FetchOutcome.parseFailed →
      check_one c d o = Except.ok r → r.checked_at = c.checked_at) ∧
    (∀ inputs rs, check_many c inputs = Except.ok rs →
      (∀ p ∈ inputs, p.2 ≠ FetchOutcome.parseFailed) →
      ∀ r ∈ rs, r.checked_at = c.checked_at) := by
  constructor
  · exact fun d o r ho h => check_one_ok_checked_at c d o r ho h
  · intro inputs rs h hnp r hr
    have hmap := tryJoinAll_ok_implies _ _ h
    have hmem : Except.ok r ∈ inputs.map (fun p => check_one c p.1 p.2) := by
      rw [hmap]
      exact List.mem_map_of_mem Except.ok hr
    obtain ⟨p, hp, hpe⟩ := List.mem_map.mp hmem
    exact check_one_ok_checked_at c p.1 p.2 r (hnp p hp) hpe

/-- Witness for C10 amended at a concrete input: the write-failure result of
`sampleClient1000` carries its construction-time `checked_at`. -/
theorem C10_checked_at_fixed_witness :
    (CheckResult.expired "a.example" 1000).checked_at =
      sampleClient1000.checked_at :=
  (C10_checked_at_fixed sampleClient1000).1 "a.example"
    FetchOutcome.writeFailed (CheckResult.expired "a.example" 1000)
    (by decide) rfl

end Theorems

end HccSpec
